import Mathlib

/-!
# Verification of the ncurses terminal UI layer (src/ncurses_ui.cc)

A shallow embedding of the color/palette resolution, color-pair cache,
resize handling, input-key decoding and menu layout logic of the ncurses
UI, together with theorems checking the natural-language specification
against it.

C++ `int` arithmetic is embedded as `Int` with `Int.tdiv`
(truncation-toward-zero division, the C++ semantics).  Stateful code
(static caches, member fields) is embedded as explicit state passing.
The fatal-error tier (assertions / aborts) is embedded as `Except Unit`.
-/

namespace NcursesUI

/-- An RGB triple, as the `unsigned char r, g, b` anonymous struct used for
`builtin_colors` entries in the source. -/
structure RGB8 where
  r : Nat
  g : Nat
  b : Nat
deriving DecidableEq, Repr

/-- `Color` from kakoune: `Default`, the eight named colors, or an RGB value
(tag `Color::RGB` with components).  Equality of two values agrees with the
equivalence induced by the source's `operator<` (tags compared first, RGB
compared lexicographically). -/
inductive Color where
  | Default
  | Black
  | Red
  | Green
  | Yellow
  | Blue
  | Magenta
  | Cyan
  | White
  | RGB (r g b : Nat)
deriving DecidableEq, Repr

/-- `template<typename T> T sq(T x) { return x * x; }` -/
def sq (x : Int) : Int := x * x

/-- `builtin_colors`, entries 0–15. -/
def builtin_colors_0 : List RGB8 := [
    ⟨0x00,0x00,0x00⟩, ⟨0x80,0x00,0x00⟩, ⟨0x00,0x80,0x00⟩, ⟨0x80,0x80,0x00⟩,
    ⟨0x00,0x00,0x80⟩, ⟨0x80,0x00,0x80⟩, ⟨0x00,0x80,0x80⟩, ⟨0xc0,0xc0,0xc0⟩,
    ⟨0x80,0x80,0x80⟩, ⟨0xff,0x00,0x00⟩, ⟨0x00,0xff,0x00⟩, ⟨0xff,0xff,0x00⟩,
    ⟨0x00,0x00,0xff⟩, ⟨0xff,0x00,0xff⟩, ⟨0x00,0xff,0xff⟩, ⟨0xff,0xff,0xff⟩]

/-- `builtin_colors`, entries 16–31. -/
def builtin_colors_1 : List RGB8 := [
    ⟨0x00,0x00,0x00⟩, ⟨0x00,0x00,0x5f⟩, ⟨0x00,0x00,0x87⟩, ⟨0x00,0x00,0xaf⟩,
    ⟨0x00,0x00,0xd7⟩, ⟨0x00,0x00,0xff⟩, ⟨0x00,0x5f,0x00⟩, ⟨0x00,0x5f,0x5f⟩,
    ⟨0x00,0x5f,0x87⟩, ⟨0x00,0x5f,0xaf⟩, ⟨0x00,0x5f,0xd7⟩, ⟨0x00,0x5f,0xff⟩,
    ⟨0x00,0x87,0x00⟩, ⟨0x00,0x87,0x5f⟩, ⟨0x00,0x87,0x87⟩, ⟨0x00,0x87,0xaf⟩]

/-- `builtin_colors`, entries 32–47. -/
def builtin_colors_2 : List RGB8 := [
    ⟨0x00,0x87,0xd7⟩, ⟨0x00,0x87,0xff⟩, ⟨0x00,0xaf,0x00⟩, ⟨0x00,0xaf,0x5f⟩,
    ⟨0x00,0xaf,0x87⟩, ⟨0x00,0xaf,0xaf⟩, ⟨0x00,0xaf,0xd7⟩, ⟨0x00,0xaf,0xff⟩,
    ⟨0x00,0xd7,0x00⟩, ⟨0x00,0xd7,0x5f⟩, ⟨0x00,0xd7,0x87⟩, ⟨0x00,0xd7,0xaf⟩,
    ⟨0x00,0xd7,0xd7⟩, ⟨0x00,0xd7,0xff⟩, ⟨0x00,0xff,0x00⟩, ⟨0x00,0xff,0x5f⟩]

/-- `builtin_colors`, entries 48–63. -/
def builtin_colors_3 : List RGB8 := [
    ⟨0x00,0xff,0x87⟩, ⟨0x00,0xff,0xaf⟩, ⟨0x00,0xff,0xd7⟩, ⟨0x00,0xff,0xff⟩,
    ⟨0x5f,0x00,0x00⟩, ⟨0x5f,0x00,0x5f⟩, ⟨0x5f,0x00,0x87⟩, ⟨0x5f,0x00,0xaf⟩,
    ⟨0x5f,0x00,0xd7⟩, ⟨0x5f,0x00,0xff⟩, ⟨0x5f,0x5f,0x00⟩, ⟨0x5f,0x5f,0x5f⟩,
    ⟨0x5f,0x5f,0x87⟩, ⟨0x5f,0x5f,0xaf⟩, ⟨0x5f,0x5f,0xd7⟩, ⟨0x5f,0x5f,0xff⟩]

/-- `builtin_colors`, entries 64–79. -/
def builtin_colors_4 : List RGB8 := [
    ⟨0x5f,0x87,0x00⟩, ⟨0x5f,0x87,0x5f⟩, ⟨0x5f,0x87,0x87⟩, ⟨0x5f,0x87,0xaf⟩,
    ⟨0x5f,0x87,0xd7⟩, ⟨0x5f,0x87,0xff⟩, ⟨0x5f,0xaf,0x00⟩, ⟨0x5f,0xaf,0x5f⟩,
    ⟨0x5f,0xaf,0x87⟩, ⟨0x5f,0xaf,0xaf⟩, ⟨0x5f,0xaf,0xd7⟩, ⟨0x5f,0xaf,0xff⟩,
    ⟨0x5f,0xd7,0x00⟩, ⟨0x5f,0xd7,0x5f⟩, ⟨0x5f,0xd7,0x87⟩, ⟨0x5f,0xd7,0xaf⟩]

/-- `builtin_colors`, entries 80–95. -/
def builtin_colors_5 : List RGB8 := [
    ⟨0x5f,0xd7,0xd7⟩, ⟨0x5f,0xd7,0xff⟩, ⟨0x5f,0xff,0x00⟩, ⟨0x5f,0xff,0x5f⟩,
    ⟨0x5f,0xff,0x87⟩, ⟨0x5f,0xff,0xaf⟩, ⟨0x5f,0xff,0xd7⟩, ⟨0x5f,0xff,0xff⟩,
    ⟨0x87,0x00,0x00⟩, ⟨0x87,0x00,0x5f⟩, ⟨0x87,0x00,0x87⟩, ⟨0x87,0x00,0xaf⟩,
    ⟨0x87,0x00,0xd7⟩, ⟨0x87,0x00,0xff⟩, ⟨0x87,0x5f,0x00⟩, ⟨0x87,0x5f,0x5f⟩]

/-- `builtin_colors`, entries 96–111. -/
def builtin_colors_6 : List RGB8 := [
    ⟨0x87,0x5f,0x87⟩, ⟨0x87,0x5f,0xaf⟩, ⟨0x87,0x5f,0xd7⟩, ⟨0x87,0x5f,0xff⟩,
    ⟨0x87,0x87,0x00⟩, ⟨0x87,0x87,0x5f⟩, ⟨0x87,0x87,0x87⟩, ⟨0x87,0x87,0xaf⟩,
    ⟨0x87,0x87,0xd7⟩, ⟨0x87,0x87,0xff⟩, ⟨0x87,0xaf,0x00⟩, ⟨0x87,0xaf,0x5f⟩,
    ⟨0x87,0xaf,0x87⟩, ⟨0x87,0xaf,0xaf⟩, ⟨0x87,0xaf,0xd7⟩, ⟨0x87,0xaf,0xff⟩]

/-- `builtin_colors`, entries 112–127. -/
def builtin_colors_7 : List RGB8 := [
    ⟨0x87,0xd7,0x00⟩, ⟨0x87,0xd7,0x5f⟩, ⟨0x87,0xd7,0x87⟩, ⟨0x87,0xd7,0xaf⟩,
    ⟨0x87,0xd7,0xd7⟩, ⟨0x87,0xd7,0xff⟩, ⟨0x87,0xff,0x00⟩, ⟨0x87,0xff,0x5f⟩,
    ⟨0x87,0xff,0x87⟩, ⟨0x87,0xff,0xaf⟩, ⟨0x87,0xff,0xd7⟩, ⟨0x87,0xff,0xff⟩,
    ⟨0xaf,0x00,0x00⟩, ⟨0xaf,0x00,0x5f⟩, ⟨0xaf,0x00,0x87⟩, ⟨0xaf,0x00,0xaf⟩]

/-- `builtin_colors`, entries 128–143. -/
def builtin_colors_8 : List RGB8 := [
    ⟨0xaf,0x00,0xd7⟩, ⟨0xaf,0x00,0xff⟩, ⟨0xaf,0x5f,0x00⟩, ⟨0xaf,0x5f,0x5f⟩,
    ⟨0xaf,0x5f,0x87⟩, ⟨0xaf,0x5f,0xaf⟩, ⟨0xaf,0x5f,0xd7⟩, ⟨0xaf,0x5f,0xff⟩,
    ⟨0xaf,0x87,0x00⟩, ⟨0xaf,0x87,0x5f⟩, ⟨0xaf,0x87,0x87⟩, ⟨0xaf,0x87,0xaf⟩,
    ⟨0xaf,0x87,0xd7⟩, ⟨0xaf,0x87,0xff⟩, ⟨0xaf,0xaf,0x00⟩, ⟨0xaf,0xaf,0x5f⟩]

/-- `builtin_colors`, entries 144–159. -/
def builtin_colors_9 : List RGB8 := [
    ⟨0xaf,0xaf,0x87⟩, ⟨0xaf,0xaf,0xaf⟩, ⟨0xaf,0xaf,0xd7⟩, ⟨0xaf,0xaf,0xff⟩,
    ⟨0xaf,0xd7,0x00⟩, ⟨0xaf,0xd7,0x5f⟩, ⟨0xaf,0xd7,0x87⟩, ⟨0xaf,0xd7,0xaf⟩,
    ⟨0xaf,0xd7,0xd7⟩, ⟨0xaf,0xd7,0xff⟩, ⟨0xaf,0xff,0x00⟩, ⟨0xaf,0xff,0x5f⟩,
    ⟨0xaf,0xff,0x87⟩, ⟨0xaf,0xff,0xaf⟩, ⟨0xaf,0xff,0xd7⟩, ⟨0xaf,0xff,0xff⟩]

/-- `builtin_colors`, entries 160–175. -/
def builtin_colors_10 : List RGB8 := [
    ⟨0xd7,0x00,0x00⟩, ⟨0xd7,0x00,0x5f⟩, ⟨0xd7,0x00,0x87⟩, ⟨0xd7,0x00,0xaf⟩,
    ⟨0xd7,0x00,0xd7⟩, ⟨0xd7,0x00,0xff⟩, ⟨0xd7,0x5f,0x00⟩, ⟨0xd7,0x5f,0x5f⟩,
    ⟨0xd7,0x5f,0x87⟩, ⟨0xd7,0x5f,0xaf⟩, ⟨0xd7,0x5f,0xd7⟩, ⟨0xd7,0x5f,0xff⟩,
    ⟨0xd7,0x87,0x00⟩, ⟨0xd7,0x87,0x5f⟩, ⟨0xd7,0x87,0x87⟩, ⟨0xd7,0x87,0xaf⟩]

/-- `builtin_colors`, entries 176–191. -/
def builtin_colors_11 : List RGB8 := [
    ⟨0xd7,0x87,0xd7⟩, ⟨0xd7,0x87,0xff⟩, ⟨0xd7,0xaf,0x00⟩, ⟨0xd7,0xaf,0x5f⟩,
    ⟨0xd7,0xaf,0x87⟩, ⟨0xd7,0xaf,0xaf⟩, ⟨0xd7,0xaf,0xd7⟩, ⟨0xd7,0xaf,0xff⟩,
    ⟨0xd7,0xd7,0x00⟩, ⟨0xd7,0xd7,0x5f⟩, ⟨0xd7,0xd7,0x87⟩, ⟨0xd7,0xd7,0xaf⟩,
    ⟨0xd7,0xd7,0xd7⟩, ⟨0xd7,0xd7,0xff⟩, ⟨0xd7,0xff,0x00⟩, ⟨0xd7,0xff,0x5f⟩]

/-- `builtin_colors`, entries 192–207. -/
def builtin_colors_12 : List RGB8 := [
    ⟨0xd7,0xff,0x87⟩, ⟨0xd7,0xff,0xaf⟩, ⟨0xd7,0xff,0xd7⟩, ⟨0xd7,0xff,0xff⟩,
    ⟨0xff,0x00,0x00⟩, ⟨0xff,0x00,0x5f⟩, ⟨0xff,0x00,0x87⟩, ⟨0xff,0x00,0xaf⟩,
    ⟨0xff,0x00,0xd7⟩, ⟨0xff,0x00,0xff⟩, ⟨0xff,0x5f,0x00⟩, ⟨0xff,0x5f,0x5f⟩,
    ⟨0xff,0x5f,0x87⟩, ⟨0xff,0x5f,0xaf⟩, ⟨0xff,0x5f,0xd7⟩, ⟨0xff,0x5f,0xff⟩]

/-- `builtin_colors`, entries 208–223. -/
def builtin_colors_13 : List RGB8 := [
    ⟨0xff,0x87,0x00⟩, ⟨0xff,0x87,0x5f⟩, ⟨0xff,0x87,0x87⟩, ⟨0xff,0x87,0xaf⟩,
    ⟨0xff,0x87,0xd7⟩, ⟨0xff,0x87,0xff⟩, ⟨0xff,0xaf,0x00⟩, ⟨0xff,0xaf,0x5f⟩,
    ⟨0xff,0xaf,0x87⟩, ⟨0xff,0xaf,0xaf⟩, ⟨0xff,0xaf,0xd7⟩, ⟨0xff,0xaf,0xff⟩,
    ⟨0xff,0xd7,0x00⟩, ⟨0xff,0xd7,0x5f⟩, ⟨0xff,0xd7,0x87⟩, ⟨0xff,0xd7,0xaf⟩]

/-- `builtin_colors`, entries 224–239. -/
def builtin_colors_14 : List RGB8 := [
    ⟨0xff,0xd7,0xd7⟩, ⟨0xff,0xd7,0xff⟩, ⟨0xff,0xff,0x00⟩, ⟨0xff,0xff,0x5f⟩,
    ⟨0xff,0xff,0x87⟩, ⟨0xff,0xff,0xaf⟩, ⟨0xff,0xff,0xd7⟩, ⟨0xff,0xff,0xff⟩,
    ⟨0x08,0x08,0x08⟩, ⟨0x12,0x12,0x12⟩, ⟨0x1c,0x1c,0x1c⟩, ⟨0x26,0x26,0x26⟩,
    ⟨0x30,0x30,0x30⟩, ⟨0x3a,0x3a,0x3a⟩, ⟨0x44,0x44,0x44⟩, ⟨0x4e,0x4e,0x4e⟩]

/-- `builtin_colors`, entries 240–255. -/
def builtin_colors_15 : List RGB8 := [
    ⟨0x58,0x58,0x58⟩, ⟨0x60,0x60,0x60⟩, ⟨0x66,0x66,0x66⟩, ⟨0x76,0x76,0x76⟩,
    ⟨0x80,0x80,0x80⟩, ⟨0x8a,0x8a,0x8a⟩, ⟨0x94,0x94,0x94⟩, ⟨0x9e,0x9e,0x9e⟩,
    ⟨0xa8,0xa8,0xa8⟩, ⟨0xb2,0xb2,0xb2⟩, ⟨0xbc,0xbc,0xbc⟩, ⟨0xc6,0xc6,0xc6⟩,
    ⟨0xd0,0xd0,0xd0⟩, ⟨0xda,0xda,0xda⟩, ⟨0xe4,0xe4,0xe4⟩, ⟨0xee,0xee,0xee⟩]

/-- The fixed built-in reference palette `builtin_colors` (16 ANSI colors,
the 216-entry 6-per-channel cube, and the 24-step gray ramp), transcribed
entry for entry from the source array (split into blocks of 16 to keep
elaboration cheap). -/
def builtin_colors : List RGB8 :=
  builtin_colors_0 ++ builtin_colors_1 ++ builtin_colors_2 ++ builtin_colors_3 ++ builtin_colors_4 ++ builtin_colors_5 ++ builtin_colors_6 ++ builtin_colors_7 ++ builtin_colors_8 ++ builtin_colors_9 ++ builtin_colors_10 ++ builtin_colors_11 ++ builtin_colors_12 ++ builtin_colors_13 ++ builtin_colors_14 ++ builtin_colors_15

/-- The squared-Euclidean RGB distance computed in `nc_color`'s
nearest-match loop: `sq(color.r - col.r) + sq(color.g - col.g) +
sq(color.b - col.b)` (components are promoted to `int`). -/
def colorDist (r g b : Nat) (col : RGB8) : Int :=
  sq ((r : Int) - (col.r : Int)) + sq ((g : Int) - (col.g : Int))
    + sq ((b : Int) - (col.b : Int))

/-- `INT_MAX`, the initial value of `lowestDist`. -/
def INT_MAX : Int := 2147483647

/-- The nearest-match scan of `nc_color`: walk the palette in ascending
index order keeping `(lowestDist, closestCol)`, updating on a strictly
smaller distance (`dist < lowestDist`), so ties keep the first-encountered
index. -/
def closestAux (r g b : Nat) : List RGB8 → Nat → Int × Int → Int × Int
  | [], _, acc => acc
  | col :: rest, i, (lowestDist, closestCol) =>
      let dist := colorDist r g b col
      closestAux r g b rest (i + 1)
        (if dist < lowestDist then (dist, (i : Int)) else (lowestDist, closestCol))

/-- The `for (int i = 0; i < std::min(256, COLORS); ++i)` nearest-match
loop of `nc_color`, returning `closestCol`. -/
def closestColor (COLORS : Int) (r g b : Nat) : Int :=
  (closestAux r g b (builtin_colors.take (min 256 COLORS).toNat) 0 (INT_MAX, -1)).2

/-- The static `std::map<Color, int> colors` of `nc_color`, embedded as an
association list (newest entries in front; lookup is by `Color` equality,
which agrees with the equivalence induced by the source's `operator<`),
together with the static cyclic counter `next_color`. -/
structure PaletteState where
  colors : List (Color × Int)
  next_color : Int
deriving Repr

/-- The nine fixed entries the static map is initialised with
(`Default → -1`, `Black → COLOR_BLACK = 0`, …, `White → COLOR_WHITE = 7`). -/
def namedColorTable : List (Color × Int) :=
  [(Color.Default, -1), (Color.Black, 0), (Color.Red, 1), (Color.Green, 2),
   (Color.Yellow, 3), (Color.Blue, 4), (Color.Magenta, 5), (Color.Cyan, 6),
   (Color.White, 7)]

/-- Initial palette state: the named-color table and `next_color = 16`. -/
def PaletteState.initial : PaletteState := ⟨namedColorTable, 16⟩

/-- Association-list lookup, the embedding of `colors.find(color)`. -/
def lookupColor (m : List (Color × Int)) (c : Color) : Option Int :=
  (m.find? (fun e => e.1 = c)).map (·.2)

/-- Result of one `nc_color` call: the returned native index, the updated
static state, and the list of `init_color(slot, r', g', b')` calls issued
(scaled components `component * 1000 / 255`). -/
structure NcColorResult where
  ret : Int
  state : PaletteState
  programmed : List (Int × Int × Int × Int)
deriving Repr

/-- `nc_color(Color)`: map lookup first; on a miss, if
`can_change_color() and COLORS > 16` allocate a palette slot from the
cyclic counter (wrapping to 16 when `next_color > COLORS`), program it
with `init_color` and cache it; otherwise fall back to the nearest-match
scan over `builtin_colors`.  The missing-color cases only ever see
`Color::RGB` values (`kak_assert(color.color == Color::RGB)`): every
non-RGB color is in the initial map, so the non-RGB arms below are
unreachable from reachable states. -/
def nc_color (canChange : Bool) (COLORS : Int) (s : PaletteState)
    (color : Color) : NcColorResult :=
  match lookupColor s.colors color with
  | some v => ⟨v, s, []⟩
  | none =>
    if canChange ∧ COLORS > 16 then
      match color with
      | Color.RGB r g b =>
        let next := if s.next_color > COLORS then 16 else s.next_color
        ⟨next,
         ⟨(Color.RGB r g b, next) :: s.colors, next + 1⟩,
         [(next, ((r : Int) * 1000).tdiv 255, ((g : Int) * 1000).tdiv 255,
           ((b : Int) * 1000).tdiv 255)]⟩
      | _ => ⟨-1, s, []⟩
    else
      match color with
      | Color.RGB r g b => ⟨closestColor COLORS r g b, s, []⟩
      | _ => ⟨-1, s, []⟩

/-! ### Properties of the nearest-match scan (claim C1) -/

theorem colorDist_nonneg (r g b : Nat) (col : RGB8) :
    0 ≤ colorDist r g b col := by
  have h1 := mul_self_nonneg ((r : Int) - (col.r : Int))
  have h2 := mul_self_nonneg ((g : Int) - (col.g : Int))
  have h3 := mul_self_nonneg ((b : Int) - (col.b : Int))
  simp only [colorDist, sq]
  omega

theorem colorDist_eq_zero_iff (r g b : Nat) (col : RGB8) :
    colorDist r g b col = 0 ↔ col = ⟨r, g, b⟩ := by
  constructor
  · intro h
    have h1 := mul_self_nonneg ((r : Int) - (col.r : Int))
    have h2 := mul_self_nonneg ((g : Int) - (col.g : Int))
    have h3 := mul_self_nonneg ((b : Int) - (col.b : Int))
    simp only [colorDist, sq] at h
    have hr : ((r : Int) - (col.r : Int)) * ((r : Int) - (col.r : Int)) = 0 := by omega
    have hg : ((g : Int) - (col.g : Int)) * ((g : Int) - (col.g : Int)) = 0 := by omega
    have hb : ((b : Int) - (col.b : Int)) * ((b : Int) - (col.b : Int)) = 0 := by omega
    have hr' : (r : Int) = (col.r : Int) := by
      have := mul_self_eq_zero.mp hr; omega
    have hg' : (g : Int) = (col.g : Int) := by
      have := mul_self_eq_zero.mp hg; omega
    have hb' : (b : Int) = (col.b : Int) := by
      have := mul_self_eq_zero.mp hb; omega
    cases col
    simp_all
  · rintro rfl
    simp [colorDist, sq]

/-- Once the running minimum has reached 0, the scan never updates again
(all distances are sums of squares, hence nonnegative, and the update test
is a strict `<`). -/
theorem closestAux_zero_fixed (r g b : Nat) (l : List RGB8) (i : Nat) (bi : Int) :
    closestAux r g b l i (0, bi) = (0, bi) := by
  induction l generalizing i with
  | nil => rfl
  | cons col rest ih =>
    have h := colorDist_nonneg r g b col
    simp only [closestAux]
    rw [if_neg (by omega)]
    exact ih (i + 1)

/-- If the color being quantized occurs in the remaining list and the
running minimum is still positive, the scan returns the position of the
first occurrence (offset by the running index), because that occurrence
has distance 0, strictly below the running minimum, and the tie-break is
the strict `<`. -/
theorem closestAux_find_self (r g b : Nat) (l : List RGB8) (i0 : Nat)
    (best bi : Int) (hbest : 0 < best) (hmem : RGB8.mk r g b ∈ l) :
    (closestAux r g b l i0 (best, bi)).2
      = (i0 : Int) + (l.findIdx (fun col => col == RGB8.mk r g b) : Int) := by
  induction l generalizing i0 best bi with
  | nil => cases hmem
  | cons col rest ih =>
    by_cases hcol : col = RGB8.mk r g b
    · have hdist : colorDist r g b col = 0 := (colorDist_eq_zero_iff r g b col).mpr hcol
      have hbeq : (col == RGB8.mk r g b) = true := beq_iff_eq.mpr hcol
      simp only [closestAux, hdist]
      rw [if_pos (by omega)]
      rw [closestAux_zero_fixed]
      simp [List.findIdx_cons, hbeq]
    · have hdist0 : colorDist r g b col ≠ 0 := fun h =>
        hcol ((colorDist_eq_zero_iff r g b col).mp h)
      have hdistpos : 0 < colorDist r g b col := by
        have := colorDist_nonneg r g b col; omega
      have hmem' : RGB8.mk r g b ∈ rest := by
        cases hmem with
        | head => exact absurd rfl hcol
        | tail _ h => exact h
      have hbeq : (col == RGB8.mk r g b) = false := beq_eq_false_iff_ne.mpr hcol
      have hfind : (((col :: rest).findIdx (fun c => c == RGB8.mk r g b) : Nat) : Int)
          = ((rest.findIdx (fun c => c == RGB8.mk r g b) : Nat) : Int) + 1 := by
        simp [List.findIdx_cons, hbeq]
      simp only [closestAux]
      by_cases hlt : colorDist r g b col < best
      · rw [if_pos hlt, ih (i0 + 1) _ _ hdistpos hmem', hfind]
        push_cast
        ring
      · rw [if_neg hlt, ih (i0 + 1) _ _ hbest hmem', hfind]
        push_cast
        ring

theorem builtin_colors_length : builtin_colors.length = 256 := by
  simp only [builtin_colors, List.length_append,
    builtin_colors_0,
    builtin_colors_1,
    builtin_colors_2,
    builtin_colors_3,
    builtin_colors_4,
    builtin_colors_5,
    builtin_colors_6,
    builtin_colors_7,
    builtin_colors_8,
    builtin_colors_9,
    builtin_colors_10,
    builtin_colors_11,
    builtin_colors_12,
    builtin_colors_13,
    builtin_colors_14,
    builtin_colors_15,
    List.length_cons, List.length_nil]

theorem closestColor_def (COLORS : Int) (r g b : Nat) :
    closestColor COLORS r g b
      = (closestAux r g b (builtin_colors.take (min 256 COLORS).toNat) 0
          (INT_MAX, -1)).2 := rfl

theorem builtin_colors_take_256 :
    builtin_colors.take (min 256 (256 : Int)).toNat = builtin_colors := by
  rw [show (min 256 (256 : Int)).toNat = 256 from rfl]
  rw [← builtin_colors_length, List.take_length]

/-- Quantizing a color that occurs in the reference palette (with all 256
entries scanned) returns the index of its first occurrence. -/
theorem closestColor_mem (r g b : Nat) (h : RGB8.mk r g b ∈ builtin_colors) :
    closestColor 256 r g b
      = (builtin_colors.findIdx (fun col => col == RGB8.mk r g b) : Int) := by
  rw [closestColor_def, builtin_colors_take_256]
  have := closestAux_find_self r g b builtin_colors 0 INT_MAX (-1)
    (by norm_num [INT_MAX]) h
  simpa using this

/-- C1 (counterexample): the claim "nearest-match quantization of a palette
entry's exact RGB value returns that entry's own index" fails at entry 16:
the 6×6×6 cube's black `{0x00,0x00,0x00}` duplicates ANSI entry 0, and the
strict `<` tie-break keeps the first-encountered index, so quantizing
`(0,0,0)` returns 0, not 16. -/
theorem C1_counterexample :
    builtin_colors.getD 16 ⟨0, 0, 0⟩ = ⟨0, 0, 0⟩
    ∧ closestColor 256 0 0 0 = 0
    ∧ (0 : Int) ≠ 16 := by
  refine ⟨rfl, ?_, by decide⟩
  have hmem0 : RGB8.mk 0 0 0 ∈ builtin_colors :=
    List.mem_append_left _ (by simp [builtin_colors_0])
  rw [closestColor_mem 0 0 0 hmem0]
  have hcons : builtin_colors = RGB8.mk 0 0 0 ::
      (builtin_colors_0.tail ++ (builtin_colors_1 ++ (builtin_colors_2 ++
       (builtin_colors_3 ++ (builtin_colors_4 ++ (builtin_colors_5 ++
       (builtin_colors_6 ++ (builtin_colors_7 ++ (builtin_colors_8 ++
       (builtin_colors_9 ++ (builtin_colors_10 ++ (builtin_colors_11 ++
       (builtin_colors_12 ++ (builtin_colors_13 ++ (builtin_colors_14 ++
        builtin_colors_15))))))))))))))) := by
    simp [builtin_colors, builtin_colors_0]
  rw [hcons, List.findIdx_cons]
  simp

/-- C1 (amended): for every entry of the fixed built-in reference palette,
nearest-match quantization of that entry's exact RGB value returns the
first palette index holding that exact RGB (an index at distance 0, no
larger than the entry's own index); for the nine values duplicated between
the ANSI block and the cube/gray ramp this is the earlier duplicate, not
the entry's own index. -/
theorem C1_quantize_palette_entry (i : Nat) (hi : i < builtin_colors.length) :
    closestColor 256 (builtin_colors.getD i ⟨0, 0, 0⟩).r
        (builtin_colors.getD i ⟨0, 0, 0⟩).g (builtin_colors.getD i ⟨0, 0, 0⟩).b
      = (builtin_colors.findIdx (fun col => col == builtin_colors.getD i ⟨0, 0, 0⟩) : Int)
    ∧ builtin_colors.findIdx (fun col => col == builtin_colors.getD i ⟨0, 0, 0⟩) ≤ i
    ∧ builtin_colors.getD
        (builtin_colors.findIdx (fun col => col == builtin_colors.getD i ⟨0, 0, 0⟩))
        ⟨0, 0, 0⟩ = builtin_colors.getD i ⟨0, 0, 0⟩ := by
  have hgd : builtin_colors.getD i ⟨0, 0, 0⟩ = builtin_colors[i] :=
    List.getD_eq_getElem _ _ hi
  have hmem : builtin_colors.getD i ⟨0, 0, 0⟩ ∈ builtin_colors := by
    rw [hgd]; exact List.getElem_mem hi
  have hp : (fun col => col == builtin_colors.getD i ⟨0, 0, 0⟩)
      (builtin_colors.getD i ⟨0, 0, 0⟩) = true := beq_self_eq_true _
  have hlt : builtin_colors.findIdx
      (fun col => col == builtin_colors.getD i ⟨0, 0, 0⟩) < builtin_colors.length :=
    List.findIdx_lt_length_of_exists ⟨_, hmem, hp⟩
  refine ⟨?_, ?_, ?_⟩
  · have := closestColor_mem (builtin_colors.getD i ⟨0, 0, 0⟩).r
      (builtin_colors.getD i ⟨0, 0, 0⟩).g (builtin_colors.getD i ⟨0, 0, 0⟩).b
      (by exact hmem)
    exact this
  · by_contra hgt
    push_neg at hgt
    have := @List.not_of_lt_findIdx RGB8
      (fun col => col == builtin_colors.getD i ⟨0, 0, 0⟩) builtin_colors i hgt
    rw [← hgd] at this
    simp at this
  · have hfe := @List.findIdx_getElem RGB8
      (fun col => col == builtin_colors.getD i ⟨0, 0, 0⟩) builtin_colors hlt
    have := List.getD_eq_getElem builtin_colors (⟨0, 0, 0⟩ : RGB8) hlt
    rw [this]
    exact beq_iff_eq.mp hfe

/-- Witness for C1: the amended statement instantiated at palette entry 42. -/
theorem C1_quantize_palette_entry_witness :
    42 < builtin_colors.length
    ∧ (closestColor 256 (builtin_colors.getD 42 ⟨0, 0, 0⟩).r
          (builtin_colors.getD 42 ⟨0, 0, 0⟩).g (builtin_colors.getD 42 ⟨0, 0, 0⟩).b
        = (builtin_colors.findIdx (fun col => col == builtin_colors.getD 42 ⟨0, 0, 0⟩) : Int)
      ∧ builtin_colors.findIdx (fun col => col == builtin_colors.getD 42 ⟨0, 0, 0⟩) ≤ 42
      ∧ builtin_colors.getD
          (builtin_colors.findIdx (fun col => col == builtin_colors.getD 42 ⟨0, 0, 0⟩))
          ⟨0, 0, 0⟩ = builtin_colors.getD 42 ⟨0, 0, 0⟩) :=
  ⟨by simp [builtin_colors_length],
   C1_quantize_palette_entry 42 (by simp [builtin_colors_length])⟩

/-! ### The color-pair cache `get_color_pair` (claim C4) -/

/-- `Face`: foreground and background colors plus an attribute bitmask
(attributes play no role in color-pair lookup). -/
structure Face where
  fg : Color
  bg : Color
  attributes : Nat := 0
deriving DecidableEq, Repr

/-- The static `UnorderedMap<ColorPair, int> colorpairs` of
`get_color_pair`, as an association list (newest entries in front),
together with the static counter `next_pair`. -/
structure PairState where
  colorpairs : List ((Color × Color) × Int)
  next_pair : Int
deriving Repr

/-- Initial state: empty cache, `next_pair = 1`. -/
def PairState.initial : PairState := ⟨[], 1⟩

/-- Association-list lookup, the embedding of `colorpairs.find(colors)`. -/
def lookupPair (m : List ((Color × Color) × Int)) (k : Color × Color) :
    Option Int :=
  (m.find? (fun e => e.1 = k)).map (·.2)

/-- `get_color_pair(face)`: look up `(face.fg, face.bg)` in the static
cache; on a hit return the cached id; on a miss
`init_pair(next_pair, nc_color(face.fg), nc_color(face.bg))`, record the
pair under `next_pair`, and return `next_pair++`.  The palette state is
threaded through because the miss path calls `nc_color` on both
components. -/
def get_color_pair (canChange : Bool) (COLORS : Int)
    (ps : PaletteState) (s : PairState) (face : Face) :
    Int × PairState × PaletteState :=
  let colors := (face.fg, face.bg)
  match lookupPair s.colorpairs colors with
  | some v => (v, s, ps)
  | none =>
      let rfg := nc_color canChange COLORS ps face.fg
      let rbg := nc_color canChange COLORS rfg.state face.bg
      (s.next_pair,
       ⟨(colors, s.next_pair) :: s.colorpairs, s.next_pair + 1⟩,
       rbg.state)

/-- C4: `get_color_pair` (the spec's `resolve_pair`) is idempotent — a
second call with the same (fg,bg) pair returns the same id; a pair not in
the cache receives exactly the next counter value, strictly larger than
every previously issued id (the cache invariant `id < next_pair` is
preserved by every call); and from the initial state the first issued id
is 1. -/
theorem C4_get_color_pair_idempotent_monotone (canChange : Bool) (COLORS : Int)
    (ps : PaletteState) (s : PairState) (face : Face)
    (hinv : ∀ kv ∈ s.colorpairs, kv.2 < s.next_pair) :
    ((get_color_pair canChange COLORS
        (get_color_pair canChange COLORS ps s face).2.2
        (get_color_pair canChange COLORS ps s face).2.1 face).1
      = (get_color_pair canChange COLORS ps s face).1)
    ∧ (lookupPair s.colorpairs (face.fg, face.bg) = none →
        (get_color_pair canChange COLORS ps s face).1 = s.next_pair
        ∧ ∀ kv ∈ s.colorpairs, kv.2 < (get_color_pair canChange COLORS ps s face).1)
    ∧ (∀ kv ∈ (get_color_pair canChange COLORS ps s face).2.1.colorpairs,
        kv.2 < (get_color_pair canChange COLORS ps s face).2.1.next_pair)
    ∧ (get_color_pair canChange COLORS ps PairState.initial face).1 = 1 := by
  cases h : lookupPair s.colorpairs (face.fg, face.bg) with
  | some v =>
    refine ⟨?_, ?_, ?_, ?_⟩
    · simp [get_color_pair, h]
    · intro hnone; simp at hnone
    · simp only [get_color_pair, h]
      exact hinv
    · simp [get_color_pair, PairState.initial, lookupPair]
  | none =>
    have hhit : lookupPair
        (((face.fg, face.bg), s.next_pair) :: s.colorpairs)
        (face.fg, face.bg) = some s.next_pair := by
      simp [lookupPair, List.find?_cons_of_pos]
    refine ⟨?_, ?_, ?_, ?_⟩
    · simp [get_color_pair, h, hhit]
    · intro _
      refine ⟨by simp [get_color_pair, h], ?_⟩
      intro kv hkv
      have := hinv kv hkv
      simp only [get_color_pair, h]
      omega
    · simp only [get_color_pair, h]
      intro kv hkv
      rcases List.mem_cons.mp hkv with rfl | hmem
      · simp
      · have := hinv kv hmem
        omega
    · simp [get_color_pair, PairState.initial, lookupPair]

/-- Witness for C4: concrete instantiation — empty initial cache, a face
with a red foreground over default background. -/
theorem C4_get_color_pair_witness :
    (∀ kv ∈ PairState.initial.colorpairs, kv.2 < PairState.initial.next_pair)
    ∧ (((get_color_pair false 256
          (get_color_pair false 256 PaletteState.initial PairState.initial
            ⟨Color.Red, Color.Default, 0⟩).2.2
          (get_color_pair false 256 PaletteState.initial PairState.initial
            ⟨Color.Red, Color.Default, 0⟩).2.1
          ⟨Color.Red, Color.Default, 0⟩).1
        = (get_color_pair false 256 PaletteState.initial PairState.initial
            ⟨Color.Red, Color.Default, 0⟩).1)
      ∧ (lookupPair PairState.initial.colorpairs (Color.Red, Color.Default) = none →
          (get_color_pair false 256 PaletteState.initial PairState.initial
            ⟨Color.Red, Color.Default, 0⟩).1 = PairState.initial.next_pair
          ∧ ∀ kv ∈ PairState.initial.colorpairs,
              kv.2 < (get_color_pair false 256 PaletteState.initial PairState.initial
                ⟨Color.Red, Color.Default, 0⟩).1)
      ∧ (∀ kv ∈ (get_color_pair false 256 PaletteState.initial PairState.initial
            ⟨Color.Red, Color.Default, 0⟩).2.1.colorpairs,
          kv.2 < (get_color_pair false 256 PaletteState.initial PairState.initial
            ⟨Color.Red, Color.Default, 0⟩).2.1.next_pair)
      ∧ (get_color_pair false 256 PaletteState.initial PairState.initial
          ⟨Color.Red, Color.Default, 0⟩).1 = 1) :=
  ⟨by simp [PairState.initial],
   C4_get_color_pair_idempotent_monotone false 256 PaletteState.initial
     PairState.initial ⟨Color.Red, Color.Default, 0⟩
     (by simp [PairState.initial])⟩

/-! ### The cyclic slot allocator of `nc_color` (claim C5) -/

/-- Allocate the RGB colors `(1,0,0), (2,0,0), …, (n,0,0)` in order through
`nc_color` (all distinct, none in the named-color map), returning the final
state and the list of all programmed slots (most recent first). -/
def allocFreshColors (canChange : Bool) (COLORS : Int) :
    Nat → PaletteState → PaletteState × List Int
  | 0, s => (s, [])
  | n + 1, s =>
      let r := allocFreshColors canChange COLORS n s
      let r' := nc_color canChange COLORS r.1 (Color.RGB (n + 1) 0 0)
      (r'.state, r'.programmed.map (·.1) ++ r.2)

/-- One-step unfolding of `allocFreshColors`. -/
theorem allocFreshColors_succ (canChange : Bool) (COLORS : Int) (n : Nat)
    (s : PaletteState) :
    allocFreshColors canChange COLORS (n + 1) s
      = ((nc_color canChange COLORS (allocFreshColors canChange COLORS n s).1
            (Color.RGB (n + 1) 0 0)).state,
         (nc_color canChange COLORS (allocFreshColors canChange COLORS n s).1
            (Color.RGB (n + 1) 0 0)).programmed.map (·.1)
           ++ (allocFreshColors canChange COLORS n s).2) := rfl

/-- On a cache miss for an RGB color with redefinition supported and
COLORS = 256 > 16, `nc_color` allocates from the cyclic counter: wrap to 16
only when `next_color > COLORS`, program the slot, cache it, return it. -/
theorem nc_color_fresh_alloc (s : PaletteState) (r g b : Nat)
    (hfresh : lookupColor s.colors (Color.RGB r g b) = none) :
    nc_color true 256 s (Color.RGB r g b)
      = ⟨if s.next_color > 256 then 16 else s.next_color,
         ⟨(Color.RGB r g b, if s.next_color > 256 then 16 else s.next_color)
            :: s.colors,
          (if s.next_color > 256 then 16 else s.next_color) + 1⟩,
         [(if s.next_color > 256 then 16 else s.next_color,
           ((r : Int) * 1000).tdiv 255, ((g : Int) * 1000).tdiv 255,
           ((b : Int) * 1000).tdiv 255)]⟩ := by
  simp [nc_color, hfresh]

/-- Freshness of the next probe color during a fresh-allocation run: if
every RGB key in the cache has first component at most `n`, the color
`(m,0,0)` with `m > n` is not cached. -/
theorem lookupColor_fresh (s : PaletteState) (n m : Nat)
    (hkeys : ∀ kv ∈ s.colors, ∀ a b c : Nat, kv.1 = Color.RGB a b c → a ≤ n)
    (hm : n < m) :
    lookupColor s.colors (Color.RGB m 0 0) = none := by
  have hfind : List.find? (fun e => decide (e.1 = Color.RGB m 0 0)) s.colors
      = none := by
    rw [List.find?_eq_none]
    intro kv hkv
    simp only [decide_eq_true_eq]
    intro heq
    have := hkeys kv hkv m 0 0 heq
    omega
  simp [lookupColor, hfind]

/-- Invariant of the fresh-allocation run (COLORS = 256, redefinition
supported): after `n ≤ 240` allocations the counter is `16 + n`, every RGB
key in the cache has first component at most `n`, and every slot programmed
so far lies in `[16, 16 + n)` — i.e. in the valid range `[16, 255]`. -/
theorem allocFreshColors_spec (n : Nat) (hn : n ≤ 240) :
    (allocFreshColors true 256 n PaletteState.initial).1.next_color = 16 + n
    ∧ (∀ kv ∈ (allocFreshColors true 256 n PaletteState.initial).1.colors,
        ∀ a b c : Nat, kv.1 = Color.RGB a b c → a ≤ n)
    ∧ (∀ slot ∈ (allocFreshColors true 256 n PaletteState.initial).2,
        16 ≤ slot ∧ slot < 16 + (n : Int)) := by
  induction n with
  | zero =>
    refine ⟨rfl, ?_, ?_⟩
    · intro kv hkv a b c h
      simp [allocFreshColors, PaletteState.initial, namedColorTable] at hkv
      rcases hkv with h9 | h9 | h9 | h9 | h9 | h9 | h9 | h9 | h9 <;>
        rw [h9] at h <;> cases h
    · intro slot hslot
      simp [allocFreshColors] at hslot
  | succ n ih =>
    have hn' : n ≤ 240 := Nat.le_of_succ_le hn
    obtain ⟨hnext, hkeys, hslots⟩ := ih hn'
    have hfresh := lookupColor_fresh _ n (n + 1) hkeys (by omega)
    have hnowrap : ¬ ((allocFreshColors true 256 n PaletteState.initial).1.next_color > 256) := by
      rw [hnext]; omega
    refine ⟨?_, ?_, ?_⟩
    · simp only [allocFreshColors, nc_color_fresh_alloc _ _ _ _ hfresh, hnext]
      split_ifs <;> push_cast <;> omega
    · simp only [allocFreshColors, nc_color_fresh_alloc _ _ _ _ hfresh,
        if_neg hnowrap]
      intro kv hkv a b c h
      rcases List.mem_cons.mp hkv with rfl | hmem
      · simp only at h
        cases h
        omega
      · have := hkeys kv hmem a b c h
        omega
    · simp only [allocFreshColors, nc_color_fresh_alloc _ _ _ _ hfresh,
        if_neg hnowrap, hnext]
      intro slot hslot
      simp only [List.map, List.cons_append, List.nil_append,
        List.mem_cons] at hslot
      rcases hslot with rfl | hmem
      · constructor <;> omega
      · have := hslots slot hmem
        constructor <;> omega

/-- C5 (code_bug): with COLORS = 256 and color redefinition supported, the
first 240 fresh RGB allocations fill exactly the valid slots 16…255, but
the 241st allocation passes slot 256 — equal to COLORS, one past the last
valid slot — to `init_color`, because the wrap test is
`next_color > COLORS` instead of `>=`.  This violates the claimed range
`[16, COLORS−1]`. -/
theorem C5_slot_ring_overflow :
    (∀ slot ∈ (allocFreshColors true 256 240 PaletteState.initial).2,
        16 ≤ slot ∧ slot ≤ 255)
    ∧ ((allocFreshColors true 256 241 PaletteState.initial).2.head? = some 256)
    ∧ ¬ ((256 : Int) ≤ 256 - 1) := by
  obtain ⟨hnext, hkeys, hslots⟩ := allocFreshColors_spec 240 (by norm_num)
  refine ⟨?_, ?_, by norm_num⟩
  · intro slot hslot
    have := hslots slot hslot
    constructor <;> omega
  · have hfresh := lookupColor_fresh _ 240 241 hkeys (by omega)
    rw [show (241 : Nat) = 240 + 1 from rfl, allocFreshColors_succ]
    rw [nc_color_fresh_alloc _ _ _ _ hfresh, hnext]
    rw [if_neg (show ¬ ((16 : Int) + (240 : Nat) > 256) by norm_num)]
    norm_num

/-! ### Surfaces, resize handling and key decoding (claims C2, C3, C6, C7, C10) -/

/-- ncurses key constants (ABI values from ncurses.h). -/
def KEY_MOUSE : Int := 409
def KEY_RESIZE : Int := 410
def KEY_BACKSPACE : Int := 263
def KEY_DC : Int := 330
def KEY_UP : Int := 259
def KEY_DOWN : Int := 258
def KEY_LEFT : Int := 260
def KEY_RIGHT : Int := 261
def KEY_PPAGE : Int := 339
def KEY_NPAGE : Int := 338
def KEY_HOME : Int := 262
def KEY_END : Int := 360
def KEY_BTAB : Int := 353

/-- `KEY_F(n) = KEY_F0 + n`, with `KEY_F0 = 0410 = 264`. -/
def KEY_F (n : Nat) : Int := 264 + n

/-- `NCursesUI::Window`: position, size and the backing pad handle;
`win = none` models a null `NCursesWin*` (as left by `destroy()` or a
failed `newpad`). -/
structure Window where
  pos : Int × Int := (0, 0)
  size : Int × Int := (0, 0)
  win : Option Unit := none
deriving DecidableEq, Repr

/-- `Window::create(p, s)`: store position and size and the raw result of
`newpad((int)size.line, (int)size.column)` (`alloc`, with `none` = the
backend failed to allocate).  The source performs no check on the `newpad`
result — the function has no failure path — so in the fatal-error monad it
always returns `Except.ok`. -/
def Window.create (p s : Int × Int) (alloc : Option Unit) :
    Except Unit Window :=
  .ok { pos := p, size := s, win := alloc }

/-- `Window::destroy()`: `delwin`, null the handle, zero pos and size. -/
def Window.destroy (_w : Window) : Window := {}

/-- A decoded ncurses `MEVENT`: coordinates and the button-state bitmask. -/
structure MouseEvent where
  y : Int
  x : Int
  bstate : Nat
deriving DecidableEq, Repr

/-- ncurses mouse bit tests (mouse ABI version 2: five state bits per
button; `NCURSES_BUTTON_RELEASED = 001`, `NCURSES_BUTTON_PRESSED = 002`). -/
def NCURSES_MOUSE_MASK (b : Int) (m : Nat) : Nat := m <<< ((b - 1).toNat * 5)

/-- `BUTTON_PRESS(e, x)`. -/
def BUTTON_PRESS (e : Nat) (b : Int) : Bool :=
  e &&& NCURSES_MOUSE_MASK b 2 ≠ 0

/-- `BUTTON_RELEASE(e, x)`. -/
def BUTTON_RELEASE (e : Nat) (b : Int) : Bool :=
  e &&& NCURSES_MOUSE_MASK b 1 ≠ 0

/-- Modelled from the spec: the typed `Key` values produced by the input
decoder (`keys.hh` is not under src/); the spec's §3 tagged union over
printable codepoints, ctrl/alt/ctrl-alt combinations, named keys, mouse
events and `Invalid`. -/
inductive Key where
  | ctrl (c : Int)
  | alt (c : Int)
  | ctrlalt (c : Int)
  | codepoint (c : Int)
  | backspace
  | delete
  | up
  | down
  | left
  | right
  | pageUp
  | pageDown
  | home
  | endKey
  | backTab
  | resize (dim : Int × Int)
  | escape
  | focusIn
  | focusOut
  | fKey (n : Int)
  | mousePress (pos : Int × Int)
  | mouseRelease (pos : Int × Int)
  | mouseWheelUp (pos : Int × Int)
  | mouseWheelDown (pos : Int × Int)
  | mousePos (pos : Int × Int)
  | invalid
deriving DecidableEq, Repr

/-- The `NCursesUI` member state relevant to resize handling and key
decoding.  `input` is the pending unit stream of the ncurses window
(front = the next `wgetch` result; `ungetch` pushes at the front);
`m_window` carries the main pad and its allocated size (`none` = null);
`full_redraw_forced` records `clearok(curscr)`/`werase(curscr)`. -/
structure UIState where
  m_window : Option (Int × Int) := none
  m_dimensions : Int × Int := (0, 0)
  m_menu : Window := {}
  m_info : Window := {}
  m_status_on_top : Bool := false
  m_wheel_down_button : Int := 2
  m_wheel_up_button : Int := 4
  input : List Int := []
  mouse_events : List MouseEvent := []
  resize_pending : Bool := false
  full_redraw_forced : Bool := false
  scroll_region : Option (Int × Int) := none
deriving DecidableEq, Repr

/-- `check_resize(force)`: return unchanged when neither forced nor
flagged; otherwise clear the flag and query the terminal geometry
(`ioctl(TIOCGWINSZ)`, modelled by the `geom` parameter, `none` = failure).
On success: destroy and re-create the main pad at the full queried size,
destroy the menu and info windows, set `m_dimensions` to
`(rows − 1, cols)`, program the scroll region when the `csr` capability
string exists, push `KEY_RESIZE` onto the input stream (`ungetch`) and
force a full repaint.  On failure the source hits `kak_assert(false)`;
kak_assert is not under src/, so it is modelled from the spec ("Geometry
query failure is fatal", §4.4/§7): the call aborts. -/
def check_resize (geom : Option (Int × Int)) (csr : Bool) (force : Bool)
    (s : UIState) : Except Unit UIState :=
  if ¬force ∧ ¬s.resize_pending then .ok s
  else
    let s := { s with resize_pending := false }
    match geom with
    | some (rows, cols) =>
        .ok { s with
              m_window := some (rows, cols),
              m_info := s.m_info.destroy,
              m_menu := s.m_menu.destroy,
              m_dimensions := (rows - 1, cols),
              scroll_region := if csr then some (0, rows) else s.scroll_region,
              input := KEY_RESIZE :: s.input,
              full_redraw_forced := true }
    | none => .error ()

/-- Modelled from the spec: `utf8::codepoint` pulled through the
`getch_iterator` (utf8.hh is not under src/) — "treat it as the lead unit
of a multi-byte UTF-8 sequence, push it back onto the source and re-decode
a full Unicode codepoint by pulling exactly as many continuation units as
the UTF-8 encoding requires" (§4.5.6).  `c` is the lead unit (already
pulled and pushed back), `input` the units after it; continuation units
contribute their low six bits.  A unit that is not a valid lead is yielded
unchanged. -/
def utf8_codepoint (c : Int) (input : List Int) : Int × List Int :=
  if c < 0x80 then (c, input)
  else if 0xc0 ≤ c ∧ c < 0xe0 then
    match input with
    | c1 :: rest => (((c.toNat % 0x20) <<< 6 ||| c1.toNat % 0x40 : Nat), rest)
    | [] => (c, [])
  else if 0xe0 ≤ c ∧ c < 0xf0 then
    match input with
    | c1 :: c2 :: rest =>
        (((c.toNat % 0x10) <<< 12 ||| (c1.toNat % 0x40) <<< 6
           ||| c2.toNat % 0x40 : Nat), rest)
    | _ => (c, input)
  else if 0xf0 ≤ c ∧ c < 0xf8 then
    match input with
    | c1 :: c2 :: c3 :: rest =>
        (((c.toNat % 0x8) <<< 18 ||| (c1.toNat % 0x40) <<< 12
           ||| (c2.toNat % 0x40) <<< 6 ||| c3.toNat % 0x40 : Nat), rest)
    | _ => (c, input)
  else (c, input)

/-- Result of one `get_key` call: the decoded key, the state afterwards,
and the two side-effect flags of the control-key branch (`redrawn`:
`redrawwin` + `redraw()` ran; `suspended`: `raise(SIGTSTP)` ran). -/
structure KeyResult where
  key : Key
  state : UIState
  redrawn : Bool := false
  suspended : Bool := false
deriving DecidableEq, Repr

/-- The non-mouse decoding chain of `get_key`, in the source's order for a
pulled unit `c`: (1) control range `0 < c < 27` with the control-L repaint
side effect and the control-Z suspend-and-yield-Invalid path; (2) `c = 27`
(ESC) with zero-timeout peeks: nothing available → `Escape`; `'['` then
`'I'`/`'O'` → focus keys (any other third unit stays consumed); otherwise
ctrl-alt or alt of the peeked unit; (3) the named-key switch (backspace
and legacy 127, delete, arrows, page keys, home, end, back-tab, resize);
(4) the F1–F12 scan; (5) a byte-valued unit is pushed back and decoded as
a UTF-8 codepoint; (6) anything else is `Invalid`. -/
def decode_chain (c : Int) (s : UIState) : KeyResult :=
  if 0 < c ∧ c < 27 then
    if c = 26 then ⟨.invalid, s, c = 12, true⟩
    else ⟨.ctrl (c - 1 + 97), s, c = 12, false⟩
  else if c = 27 then
    match s.input with
    | [] => ⟨.escape, s, false, false⟩
    | new_c :: rest =>
      if new_c = 91 then
        match rest with
        | csi_val :: rest2 =>
          if csi_val = 73 then ⟨.focusIn, { s with input := rest2 }, false, false⟩
          else if csi_val = 79 then ⟨.focusOut, { s with input := rest2 }, false, false⟩
          else ⟨.alt 91, { s with input := rest2 }, false, false⟩
        | [] => ⟨.alt 91, { s with input := [] }, false, false⟩
      else if 0 < new_c ∧ new_c < 27 then
        ⟨.ctrlalt (new_c - 1 + 97), { s with input := rest }, false, false⟩
      else ⟨.alt new_c, { s with input := rest }, false, false⟩
  else if c = KEY_BACKSPACE ∨ c = 127 then ⟨.backspace, s, false, false⟩
  else if c = KEY_DC then ⟨.delete, s, false, false⟩
  else if c = KEY_UP then ⟨.up, s, false, false⟩
  else if c = KEY_DOWN then ⟨.down, s, false, false⟩
  else if c = KEY_LEFT then ⟨.left, s, false, false⟩
  else if c = KEY_RIGHT then ⟨.right, s, false, false⟩
  else if c = KEY_PPAGE then ⟨.pageUp, s, false, false⟩
  else if c = KEY_NPAGE then ⟨.pageDown, s, false, false⟩
  else if c = KEY_HOME then ⟨.home, s, false, false⟩
  else if c = KEY_END then ⟨.endKey, s, false, false⟩
  else if c = KEY_BTAB then ⟨.backTab, s, false, false⟩
  else if c = KEY_RESIZE then ⟨.resize s.m_dimensions, s, false, false⟩
  else if KEY_F 1 ≤ c ∧ c ≤ KEY_F 12 then ⟨.fKey (c - 264), s, false, false⟩
  else if 0 ≤ c ∧ c < 256 then
    let r := utf8_codepoint c s.input
    ⟨.codepoint r.1, { s with input := r.2 }, false, false⟩
  else ⟨.invalid, s, false, false⟩

/-- `get_key()`: run `check_resize()` first, then pull one unit with the
blocking `wgetch` (`none` result models that the call would block on an
empty stream).  A `KEY_MOUSE` unit with a queued mouse event decodes via
the button-state bits (press/release of button 1, then the configured
wheel buttons, else motion), subtracting one row when the status line is
on top; a `KEY_MOUSE` unit whose `getmouse` fails falls through to the
ordinary chain, as in the source. -/
def get_key (geom : Option (Int × Int)) (csr : Bool) (s0 : UIState) :
    Except Unit (Option KeyResult) := do
  let s ← check_resize geom csr false s0
  match s.input with
  | [] => pure none
  | c :: input =>
    let s := { s with input := input }
    if c = KEY_MOUSE then
      match s.mouse_events with
      | ev :: mevs =>
          let s := { s with mouse_events := mevs }
          let pos := (ev.y - (if s.m_status_on_top then 1 else 0), ev.x)
          if BUTTON_PRESS ev.bstate 1 then
            pure (some ⟨.mousePress pos, s, false, false⟩)
          else if BUTTON_RELEASE ev.bstate 1 then
            pure (some ⟨.mouseRelease pos, s, false, false⟩)
          else if BUTTON_PRESS ev.bstate s.m_wheel_down_button then
            pure (some ⟨.mouseWheelDown pos, s, false, false⟩)
          else if BUTTON_PRESS ev.bstate s.m_wheel_up_button then
            pure (some ⟨.mouseWheelUp pos, s, false, false⟩)
          else pure (some ⟨.mousePos pos, s, false, false⟩)
      | [] => pure (some (decode_chain c s))
    else pure (some (decode_chain c s))

/-- C2 (counterexample): `Window::create` performs no check of the
`newpad` result: when the backend fails to allocate (null pad) the call
returns normally, storing the null handle — the process does not abort,
refuting "the backend cannot allocate a surface's backing region in
Surface create → the process aborts immediately". -/
theorem C2_counterexample :
    Window.create (5, 5) (10, 20) none
      = Except.ok { pos := (5, 5), size := (10, 20), win := none } := rfl

/-- C2 (amended): of the two claimed fatal conditions only the geometry
query is fatal: a non-skipped `check_resize` whose geometry query fails
aborts (via `kak_assert(false)`, modelled from the spec as fatal), while
`Window::create` has no failure path at all — on allocation failure it
returns normally with a null backing handle and execution continues. -/
theorem C2_fatal_error_tiers (csr : Bool) (s : UIState) (force : Bool)
    (h : force = true ∨ s.resize_pending = true) (p sz : Int × Int) :
    check_resize none csr force s = Except.error ()
    ∧ Window.create p sz none
        = Except.ok { pos := p, size := sz, win := none } := by
  refine ⟨?_, rfl⟩
  rcases h with h | h <;> simp [check_resize, h]

/-- Witness for C2: forced `check_resize` with failing geometry query, and
a concrete failed surface allocation. -/
theorem C2_fatal_error_tiers_witness :
    ((true : Bool) = true ∨ ({} : UIState).resize_pending = true)
    ∧ (check_resize none false true {} = Except.error ()
      ∧ Window.create (1, 1) (5, 5) none
          = Except.ok { pos := (1, 1), size := (5, 5), win := none }) :=
  ⟨Or.inl rfl, C2_fatal_error_tiers false {} true (Or.inl rfl) (1, 1) (5, 5)⟩

/-- C3: with a successful geometry query `(rows, cols)`:
`check_resize(false)` with no pending flag returns the state unchanged;
when forced or flagged it clears the flag, rebuilds the main surface with
`m_dimensions = (rows − 1, cols)` (one row reserved for the status line)
and pushes the synthetic `KEY_RESIZE` unit onto the pending-input stream;
and with the flag pending a subsequent `get_key` call observes the
synthetic `Resize` key carrying `(rows − 1, cols)`. -/
theorem C3_check_resize_resize_key (geom : Option (Int × Int)) (csr : Bool)
    (s : UIState) (rows cols : Int) (hg : geom = some (rows, cols)) :
    (s.resize_pending = false → check_resize geom csr false s = .ok s)
    ∧ (∀ force : Bool, force = true ∨ s.resize_pending = true →
        check_resize geom csr force s = .ok
          { s with resize_pending := false,
                   m_window := some (rows, cols),
                   m_info := {}, m_menu := {},
                   m_dimensions := (rows - 1, cols),
                   scroll_region := if csr then some (0, rows) else s.scroll_region,
                   input := KEY_RESIZE :: s.input,
                   full_redraw_forced := true })
    ∧ (s.resize_pending = true →
        get_key geom csr s = .ok (some
          ⟨Key.resize (rows - 1, cols),
           { s with resize_pending := false,
                    m_window := some (rows, cols),
                    m_info := {}, m_menu := {},
                    m_dimensions := (rows - 1, cols),
                    scroll_region := if csr then some (0, rows) else s.scroll_region,
                    input := s.input,
                    full_redraw_forced := true },
           false, false⟩)) := by
  subst hg
  refine ⟨?_, ?_, ?_⟩
  · intro hq
    simp [check_resize, hq]
  · intro force h
    rcases h with h | h <;>
      simp [check_resize, h, Window.destroy]
  · intro hp
    simp only [get_key, check_resize, hp, not_true_eq_false, and_false,
      if_false, Window.destroy, bind, Except.bind]
    simp [decode_chain, KEY_RESIZE, KEY_MOUSE, KEY_BACKSPACE, KEY_DC,
      KEY_UP, KEY_DOWN, KEY_LEFT, KEY_RIGHT, KEY_PPAGE, KEY_NPAGE,
      KEY_HOME, KEY_END, KEY_BTAB, KEY_F, pure, Except.pure]

/-- Witness for C3: geometry query answering 24×80, pending resize flag. -/
theorem C3_check_resize_resize_key_witness :
    (some ((24 : Int), (80 : Int)) = some (24, 80))
    ∧ (({ resize_pending := true } : UIState).resize_pending = false →
        check_resize (some (24, 80)) false false { resize_pending := true }
          = .ok { resize_pending := true })
    ∧ (∀ force : Bool,
        force = true ∨ ({ resize_pending := true } : UIState).resize_pending = true →
        check_resize (some (24, 80)) false force { resize_pending := true } = .ok
          { ({ resize_pending := true } : UIState) with
                   resize_pending := false,
                   m_window := some (24, 80),
                   m_info := {}, m_menu := {},
                   m_dimensions := (24 - 1, 80),
                   scroll_region := if false then some (0, 24) else
                     ({ resize_pending := true } : UIState).scroll_region,
                   input := KEY_RESIZE :: ({ resize_pending := true } : UIState).input,
                   full_redraw_forced := true })
    ∧ (({ resize_pending := true } : UIState).resize_pending = true →
        get_key (some (24, 80)) false { resize_pending := true } = .ok (some
          ⟨Key.resize (24 - 1, 80),
           { ({ resize_pending := true } : UIState) with
                    resize_pending := false,
                    m_window := some (24, 80),
                    m_info := {}, m_menu := {},
                    m_dimensions := (24 - 1, 80),
                    scroll_region := if false then some (0, 24) else
                      ({ resize_pending := true } : UIState).scroll_region,
                    input := ({ resize_pending := true } : UIState).input,
                    full_redraw_forced := true },
           false, false⟩)) := by
  refine ⟨rfl, ?_⟩
  exact C3_check_resize_resize_key (some (24, 80)) false
    { resize_pending := true } 24 80 rfl

/-- C6: decoding `ESC '[' 'I'` yields `FocusIn`, `ESC '[' 'O'` yields
`FocusOut`, and a lone `ESC` with no further unit available within the
zero-timeout peek yields `Escape`. -/
theorem C6_escape_focus_keys (s : UIState) (rest : List Int)
    (hq : s.resize_pending = false) :
    (get_key none false { s with input := [27] }
      = .ok (some ⟨Key.escape, { s with input := [] }, false, false⟩))
    ∧ (get_key none false { s with input := 27 :: 91 :: 73 :: rest }
      = .ok (some ⟨Key.focusIn, { s with input := rest }, false, false⟩))
    ∧ (get_key none false { s with input := 27 :: 91 :: 79 :: rest }
      = .ok (some ⟨Key.focusOut, { s with input := rest }, false, false⟩)) := by
  refine ⟨?_, ?_, ?_⟩ <;>
    simp [get_key, check_resize, hq, decode_chain, KEY_MOUSE,
      bind, Except.bind, pure, Except.pure]

/-- Witness for C6: the empty base state, `rest = [66]`. -/
theorem C6_escape_focus_keys_witness :
    (({} : UIState).resize_pending = false)
    ∧ ((get_key none false { ({} : UIState) with input := [27] }
      = .ok (some ⟨Key.escape, { ({} : UIState) with input := [] }, false, false⟩))
    ∧ (get_key none false { ({} : UIState) with input := 27 :: 91 :: 73 :: [66] }
      = .ok (some ⟨Key.focusIn, { ({} : UIState) with input := [66] }, false, false⟩))
    ∧ (get_key none false { ({} : UIState) with input := 27 :: 91 :: 79 :: [66] }
      = .ok (some ⟨Key.focusOut, { ({} : UIState) with input := [66] }, false, false⟩))) :=
  ⟨rfl, C6_escape_focus_keys {} [66] rfl⟩

/-- C7: decoding the control-L unit (12) performs the repaint
(`redrawwin` + `redraw()`) as a side effect and still returns
`ctrl('l')` (codepoint 108): the repaint does not replace the key. -/
theorem C7_ctrl_l_redraw_and_key (s : UIState) (rest : List Int)
    (hq : s.resize_pending = false) :
    get_key none false { s with input := 12 :: rest }
      = .ok (some ⟨Key.ctrl 108, { s with input := rest }, true, false⟩) := by
  simp [get_key, check_resize, hq, decode_chain, KEY_MOUSE,
    bind, Except.bind, pure, Except.pure]

/-- Witness for C7: empty base state, empty rest. -/
theorem C7_ctrl_l_redraw_and_key_witness :
    (({} : UIState).resize_pending = false)
    ∧ get_key none false { ({} : UIState) with input := 12 :: [] }
        = .ok (some ⟨Key.ctrl 108, { ({} : UIState) with input := [] }, true, false⟩) :=
  ⟨rfl, C7_ctrl_l_redraw_and_key {} [] rfl⟩

/-- C10: after `ESC '['`, a third unit that is neither `'I'` nor `'O'` is
consumed (never pushed back) and the decoded key is `alt('[')`; the third
unit is not available to subsequent reads. -/
theorem C10_csi_third_unit_swallowed (s : UIState) (x : Int) (rest : List Int)
    (hq : s.resize_pending = false) (hxI : x ≠ 73) (hxO : x ≠ 79) :
    get_key none false { s with input := 27 :: 91 :: x :: rest }
      = .ok (some ⟨Key.alt 91, { s with input := rest }, false, false⟩) := by
  simp [get_key, check_resize, hq, decode_chain, KEY_MOUSE, hxI, hxO,
    bind, Except.bind, pure, Except.pure]

/-- Witness for C10: `ESC '[' 'A'` followed by `'B'` decodes to `alt('[')`
with only `'B'` left in the stream. -/
theorem C10_csi_third_unit_swallowed_witness :
    (({} : UIState).resize_pending = false)
    ∧ ((65 : Int) ≠ 73) ∧ ((65 : Int) ≠ 79)
    ∧ get_key none false { ({} : UIState) with input := 27 :: 91 :: 65 :: [66] }
        = .ok (some ⟨Key.alt 91, { ({} : UIState) with input := [66] }, false, false⟩) :=
  ⟨rfl, by decide, by decide,
   C10_csi_third_unit_swallowed {} 65 [66] rfl (by decide) (by decide)⟩

/-! ### Menu layout (claims C8, C9) -/

/-- `MenuStyle` from the user interface header. -/
inductive MenuStyle where
  | Prompt
  | Context
deriving DecidableEq, Repr

/-- `div_round_up(a, b) = (a - 1)/b + 1`, with C++ `int` division
(truncation toward zero, `Int.tdiv`). -/
def div_round_up (a b : Int) : Int := (a - 1).tdiv b + 1

/-- The menu-related member state of `NCursesUI`: the menu window, the
truncated item strings (as codepoint lists), the column count, the
selected index and the top visible row. -/
structure MenuState where
  m_menu : Window := {}
  m_items : List (List Char) := []
  m_menu_columns : Int := 1
  m_selected_item : Int := 0
  m_menu_top_line : Int := 0
  m_menu_fg : Face := ⟨Color.Default, Color.Default, 0⟩
  m_menu_bg : Face := ⟨Color.Default, Color.Default, 0⟩
deriving DecidableEq, Repr

/-- `menu_hide()`: clear the items and destroy the window (no-op when the
window is null); the dirty-marking is rendering-only and not tracked
here. -/
def menu_hide (m : MenuState) : MenuState :=
  if m.m_menu.win = none then m
  else { m with m_items := [], m_menu := m.m_menu.destroy }

/-- `menu_show(items, anchor, fg, bg, style)`: hide any existing menu and
store the faces; for `Prompt` style re-anchor to the status row (column
0), otherwise shift the anchor one line down when the status line is on
top; return without creating a window when the available width is ≤ 2;
truncate each item to `min(available−2, 200)` codepoints and compute the
longest truncated width + 1; columns = `(available−1)/longest` for
`Prompt` style, 1 otherwise; visible height =
`min(10, div_round_up(item_count, columns))`; place one row below the
anchor, or `height` rows above it when that would reach the bottom edge;
width = the full available width for `Prompt`, else `longest`; reset the
selection (to `item_count`) and the scroll, and create the menu window
(`dims` and `status_on_top` are the `m_dimensions`/`m_status_on_top`
members; the `newpad` call of `Window::create` is taken as succeeding). -/
def menu_show (dims : Int × Int) (status_on_top : Bool)
    (items : List (List Char)) (anchor : Int × Int)
    (fg bg : Face) (style : MenuStyle) (m : MenuState) : MenuState :=
  let m := menu_hide m
  let m := { m with m_menu_fg := fg, m_menu_bg := bg }
  let anchor :=
    if style = MenuStyle.Prompt then
      ((if status_on_top then 0 else dims.1), 0)
    else if status_on_top then (anchor.1 + 1, anchor.2) else anchor
  let maxsize : Int × Int := (dims.1, dims.2 - anchor.2)
  if maxsize.2 ≤ 2 then m
  else
    let item_count : Int := (items.length : Int)
    let maxlen : Int := min (maxsize.2 - 2) 200
    let m_items := items.map (fun it => it.take maxlen.toNat)
    let longest : Int :=
      (m_items.foldl (fun l it => max l (it.length : Int)) 0) + 1
    let is_prompt := style = MenuStyle.Prompt
    let m_menu_columns :=
      if is_prompt then (maxsize.2 - 1).tdiv longest else 1
    let height := min 10 (div_round_up item_count m_menu_columns)
    let line := anchor.1 + 1
    let line := if line + height ≥ maxsize.1 then anchor.1 - height else line
    let width := if is_prompt then maxsize.2 else longest
    { m with m_items := m_items,
             m_menu_columns := m_menu_columns,
             m_selected_item := item_count,
             m_menu_top_line := 0,
             m_menu := { pos := (line, anchor.2), size := (height, width),
                         win := some () } }

/-- `menu_select(selected)`: an out-of-range index clears the selection
and resets the scroll; a valid index is stored, and the top visible line
is pulled up to the selected row when the row is above the window, or
clamped to `min(selected_line, menu_lines − win_height)` when the row is
at or below the window's end. -/
def menu_select (m : MenuState) (selected : Int) : MenuState :=
  let item_count : Int := (m.m_items.length : Int)
  let menu_lines := div_round_up item_count m.m_menu_columns
  if selected < 0 ∨ selected ≥ item_count then
    { m with m_selected_item := -1, m_menu_top_line := 0 }
  else
    let m := { m with m_selected_item := selected }
    let selected_line := selected.tdiv m.m_menu_columns
    let win_height := m.m_menu.size.1
    let top :=
      if selected_line < m.m_menu_top_line then selected_line
      else m.m_menu_top_line
    let top :=
      if selected_line ≥ top + win_height then
        min selected_line (menu_lines - win_height)
      else top
    { m with m_menu_top_line := top }

/-- Truncating division is monotone in the numerator on nonnegative
arguments. -/
theorem tdiv_le_tdiv_of_le {a b c : Int} (ha : 0 ≤ a) (hc : 0 < c)
    (h : a ≤ b) : a.tdiv c ≤ b.tdiv c := by
  rw [Int.tdiv_eq_ediv ha hc.le, Int.tdiv_eq_ediv (ha.trans h) hc.le]
  exact Int.ediv_le_ediv hc h

/-- For at least one item and a positive column count, `div_round_up`
computes the exact ceiling `⌈n / c⌉ = (n + c − 1) tdiv c`. -/
theorem div_round_up_eq_ceil {n c : Int} (hn : 1 ≤ n) (hc : 1 ≤ c) :
    div_round_up n c = (n + c - 1).tdiv c := by
  unfold div_round_up
  rw [Int.tdiv_eq_ediv (by omega) (by omega),
      Int.tdiv_eq_ediv (by omega) (by omega)]
  have he : n + c - 1 = (n - 1) + 1 * c := by ring
  rw [he, Int.add_mul_ediv_right _ _ (by omega : c ≠ 0)]

/-- C9: for a shown menu (positive column count, window height ≥ 1 and at
most the total row count — the source's `kak_assert` — and a top line
already within `[0, menu_lines − height]`): an out-of-range index clears
the selection (−1) and resets the top line to 0; a valid index whose row
is at or beyond `top + height` moves the top to
`min(selected_row, menu_lines − height)`; and after any valid selection
the top line stays within `[0, menu_lines − height]` and the selected row
within `[top, top + height)`. -/
theorem C9_menu_select_clamp (m : MenuState) (selected : Int)
    (hcols : 1 ≤ m.m_menu_columns)
    (hheight : 1 ≤ m.m_menu.size.1)
    (hassert : m.m_menu.size.1
      ≤ div_round_up (m.m_items.length : Int) m.m_menu_columns)
    (htop0 : 0 ≤ m.m_menu_top_line)
    (htop1 : m.m_menu_top_line
      ≤ div_round_up (m.m_items.length : Int) m.m_menu_columns
          - m.m_menu.size.1) :
    ((selected < 0 ∨ (m.m_items.length : Int) ≤ selected) →
        (menu_select m selected).m_selected_item = -1
        ∧ (menu_select m selected).m_menu_top_line = 0)
    ∧ (0 ≤ selected → selected < (m.m_items.length : Int) →
        (menu_select m selected).m_selected_item = selected
        ∧ (m.m_menu_top_line + m.m_menu.size.1 ≤ selected.tdiv m.m_menu_columns →
            (menu_select m selected).m_menu_top_line
              = min (selected.tdiv m.m_menu_columns)
                  (div_round_up (m.m_items.length : Int) m.m_menu_columns
                    - m.m_menu.size.1))
        ∧ 0 ≤ (menu_select m selected).m_menu_top_line
        ∧ (menu_select m selected).m_menu_top_line
            ≤ div_round_up (m.m_items.length : Int) m.m_menu_columns
                - m.m_menu.size.1
        ∧ (menu_select m selected).m_menu_top_line
            ≤ selected.tdiv m.m_menu_columns
        ∧ selected.tdiv m.m_menu_columns
            < (menu_select m selected).m_menu_top_line + m.m_menu.size.1) := by
  constructor
  · intro hout
    have hcond : selected < 0 ∨ selected ≥ (m.m_items.length : Int) := hout
    simp [menu_select, hcond]
  · intro h0 hlt
    have hc : (0 : Int) < m.m_menu_columns := hcols
    have hsl0 : 0 ≤ selected.tdiv m.m_menu_columns :=
      Int.tdiv_nonneg h0 hc.le
    have hslL : selected.tdiv m.m_menu_columns
        ≤ div_round_up (m.m_items.length : Int) m.m_menu_columns - 1 := by
      have h1 : selected.tdiv m.m_menu_columns
          ≤ ((m.m_items.length : Int) - 1).tdiv m.m_menu_columns :=
        tdiv_le_tdiv_of_le h0 hc (by omega)
      have h2 : div_round_up (m.m_items.length : Int) m.m_menu_columns
          = ((m.m_items.length : Int) - 1).tdiv m.m_menu_columns + 1 := rfl
      omega
    have hnotout : ¬ (selected < 0 ∨ selected ≥ (m.m_items.length : Int)) := by
      omega
    simp only [menu_select]
    rw [if_neg hnotout]
    refine ⟨by simp, ?_, ?_, ?_, ?_, ?_⟩ <;> simp only [] <;>
      split_ifs <;> simp_all <;> omega

/-- A concrete shown-menu state for the C9 witness: 25 single-character
items in 5 columns (5 total rows), window height 5, top line 0. -/
def menuStateExample : MenuState :=
  { m_menu := ⟨(0, 0), (5, 80), some ()⟩,
    m_items := List.replicate 25 ['a'],
    m_menu_columns := 5, m_selected_item := 25, m_menu_top_line := 0 }

/-- Witness for C9: selecting index 23 (row 4) in `menuStateExample`. -/
theorem C9_menu_select_clamp_witness :
    (1 ≤ menuStateExample.m_menu_columns
    ∧ 1 ≤ menuStateExample.m_menu.size.1
    ∧ menuStateExample.m_menu.size.1
        ≤ div_round_up (menuStateExample.m_items.length : Int) menuStateExample.m_menu_columns
    ∧ 0 ≤ menuStateExample.m_menu_top_line
    ∧ menuStateExample.m_menu_top_line
        ≤ div_round_up (menuStateExample.m_items.length : Int) menuStateExample.m_menu_columns
            - menuStateExample.m_menu.size.1)
    ∧ (((23 : Int) < 0 ∨ (menuStateExample.m_items.length : Int) ≤ 23) →
        (menu_select menuStateExample 23).m_selected_item = -1
        ∧ (menu_select menuStateExample 23).m_menu_top_line = 0)
    ∧ (0 ≤ (23 : Int) → (23 : Int) < (menuStateExample.m_items.length : Int) →
        (menu_select menuStateExample 23).m_selected_item = 23
        ∧ (menuStateExample.m_menu_top_line + menuStateExample.m_menu.size.1
              ≤ (23 : Int).tdiv menuStateExample.m_menu_columns →
            (menu_select menuStateExample 23).m_menu_top_line
              = min ((23 : Int).tdiv menuStateExample.m_menu_columns)
                  (div_round_up (menuStateExample.m_items.length : Int) menuStateExample.m_menu_columns
                    - menuStateExample.m_menu.size.1))
        ∧ 0 ≤ (menu_select menuStateExample 23).m_menu_top_line
        ∧ (menu_select menuStateExample 23).m_menu_top_line
            ≤ div_round_up (menuStateExample.m_items.length : Int) menuStateExample.m_menu_columns
                - menuStateExample.m_menu.size.1
        ∧ (menu_select menuStateExample 23).m_menu_top_line
            ≤ (23 : Int).tdiv menuStateExample.m_menu_columns
        ∧ (23 : Int).tdiv menuStateExample.m_menu_columns
            < (menu_select menuStateExample 23).m_menu_top_line + menuStateExample.m_menu.size.1) :=
  ⟨⟨by decide, by decide, by decide, by decide, by decide⟩,
   (C9_menu_select_clamp menuStateExample 23
     (by decide) (by decide) (by decide) (by decide) (by decide)).1,
   (C9_menu_select_clamp menuStateExample 23
     (by decide) (by decide) (by decide) (by decide) (by decide)).2⟩

/-- The claim's "available width" for a menu: the terminal width minus the
anchor column, the anchor being moved to column 0 for `Prompt` style. -/
def menuAvail (dims : Int × Int) (anchor : Int × Int) (style : MenuStyle) :
    Int :=
  dims.2 - (if style = MenuStyle.Prompt then 0 else anchor.2)

/-- The claim's "longest_item_width": the longest item width after
truncation to `min(available − 2, 200)` codepoints, plus one. -/
def menuLongest (items : List (List Char)) (avail : Int) : Int :=
  ((items.map (fun it => it.take (min (avail - 2) 200).toNat)).foldl
    (fun l it => max l (it.length : Int)) 0) + 1

/-- The claim's column count, stated from the claim's words: 1 for
`Context` style; `floor((available_width−1)/longest_item_width)`, minimum
1, for `Prompt` style. -/
def menuClaimColumns (dims : Int × Int) (anchor : Int × Int)
    (items : List (List Char)) (style : MenuStyle) : Int :=
  if style = MenuStyle.Prompt then
    max 1 ((menuAvail dims anchor style - 1).tdiv
      (menuLongest items (menuAvail dims anchor style)))
  else 1

/-- The accumulator is a lower bound of a left max-fold. -/
theorem le_foldl_max (l : List (List Char)) (acc : Int) :
    acc ≤ l.foldl (fun x it => max x (it.length : Int)) acc := by
  induction l generalizing acc with
  | nil => exact le_refl _
  | cons it rest ih => exact le_trans (le_max_left _ _) (ih _)

/-- A left max-fold stays below any common upper bound. -/
theorem foldl_max_le (B : Int) :
    ∀ (l : List (List Char)) (acc : Int),
      (∀ it ∈ l, (it.length : Int) ≤ B) → acc ≤ B →
      l.foldl (fun x it => max x (it.length : Int)) acc ≤ B := by
  intro l
  induction l with
  | nil => intro acc _ hacc; exact hacc
  | cons it rest ih =>
    intro acc hl hacc
    exact ih _ (fun x hx => hl x (List.mem_cons_of_mem _ hx))
      (max_le hacc (hl it (List.mem_cons_self _ _)))

/-- After truncation the longest width (+1) lies in `[1, available − 1]`:
this is what makes the code's `(available−1)/longest` automatically ≥ 1. -/
theorem menuLongest_bounds (items : List (List Char)) (avail : Int)
    (hav : 2 < avail) :
    1 ≤ menuLongest items avail ∧ menuLongest items avail ≤ avail - 1 := by
  have hmaxlen : (0 : Int) ≤ min (avail - 2) 200 := by omega
  constructor
  · have := le_foldl_max
      (items.map (fun it => it.take (min (avail - 2) 200).toNat)) 0
    unfold menuLongest
    omega
  · have hb : ∀ it ∈ items.map (fun it => it.take (min (avail - 2) 200).toNat),
        (it.length : Int) ≤ min (avail - 2) 200 := by
      intro it hit
      rcases List.mem_map.mp hit with ⟨it0, _, rfl⟩
      have h1 : (it0.take (min (avail - 2) 200).toNat).length
          ≤ (min (avail - 2) 200).toNat := by
        rw [List.length_take]
        exact min_le_left _ _
      have h2 : (((min (avail - 2) 200).toNat : Nat) : Int)
          = min (avail - 2) 200 := Int.toNat_of_nonneg hmaxlen
      omega
    have := foldl_max_le (min (avail - 2) 200) _ 0 hb (by omega)
    unfold menuLongest
    omega

/-- C8 (counterexample): a `Prompt`-style `menu_show` with zero items still
creates the menu surface, with visible height
`min(10, div_round_up(0, 79)) = 1` — the C++ `(0−1)/79 + 1` truncates to
`0 + 1` — whereas the claimed formula gives `min(10, ceil(0/79)) = 0`. -/
theorem C8_counterexample :
    ((menu_show (24, 80) false [] (0, 0) ⟨Color.Default, Color.Default, 0⟩
        ⟨Color.Default, Color.Default, 0⟩ MenuStyle.Prompt {}).m_menu.win
      = some ())
    ∧ ((menu_show (24, 80) false [] (0, 0) ⟨Color.Default, Color.Default, 0⟩
        ⟨Color.Default, Color.Default, 0⟩ MenuStyle.Prompt {}).m_menu_columns
      = 79)
    ∧ ((menu_show (24, 80) false [] (0, 0) ⟨Color.Default, Color.Default, 0⟩
        ⟨Color.Default, Color.Default, 0⟩ MenuStyle.Prompt {}).m_menu.size.1
      = 1)
    ∧ ((1 : Int) ≠ min 10 ((((0 : Int) + 79 - 1).tdiv 79))) := by
  refine ⟨rfl, rfl, rfl, by decide⟩

/-- C8 (amended): every `menu_show` call that creates the menu surface and
receives at least one item creates it with visible height
`min(10, ⌈item_count / column_count⌉)`, the column count being 1 for
`Context` style and `floor((available_width−1)/longest_item_width)`,
minimum 1, for `Prompt` style (the minimum is automatic: truncation keeps
`longest ≤ available − 1`).  With zero items the code's `div_round_up`
gives height 1 for `Prompt` style instead of the ceiling 0, hence the
added item-count restriction. -/
theorem C8_menu_show_height (dims : Int × Int) (status_on_top : Bool)
    (items : List (List Char)) (anchor : Int × Int) (fg bg : Face)
    (style : MenuStyle) (m : MenuState)
    (hav : 2 < menuAvail dims anchor style) (hne : items ≠ []) :
    ((menu_show dims status_on_top items anchor fg bg style m).m_menu.win
      = some ())
    ∧ (menu_show dims status_on_top items anchor fg bg style m).m_menu_columns
        = menuClaimColumns dims anchor items style
    ∧ (menu_show dims status_on_top items anchor fg bg style m).m_menu.size.1
        = min 10 (((items.length : Int)
            + menuClaimColumns dims anchor items style - 1).tdiv
            (menuClaimColumns dims anchor items style)) := by
  have hn1 : 1 ≤ (items.length : Int) := by
    have := List.length_pos.mpr hne
    omega
  cases style with
  | Prompt =>
    have hav' : 2 < dims.2 := by simpa [menuAvail] using hav
    obtain ⟨hl1, hl2⟩ := menuLongest_bounds items dims.2 hav'
    have hlpos : (0 : Int) < menuLongest items dims.2 := by omega
    have hcols1 : 1 ≤ (dims.2 - 1).tdiv (menuLongest items dims.2) := by
      have h := tdiv_le_tdiv_of_le (a := menuLongest items dims.2)
        (b := dims.2 - 1) (c := menuLongest items dims.2) hlpos.le hlpos
        (by omega)
      rw [Int.tdiv_self (by omega)] at h
      exact h
    have hclaim : menuClaimColumns dims anchor items MenuStyle.Prompt
        = (dims.2 - 1).tdiv (menuLongest items dims.2) := by
      simp only [menuClaimColumns, menuAvail, eq_self_iff_true, if_true,
        sub_zero]
      omega
    rw [hclaim]
    refine ⟨?_, ?_, ?_⟩
    · simp only [menu_show, menu_hide, eq_self_iff_true, if_true]
      rw [if_neg (by omega : ¬ (dims.2 - 0 ≤ 2))]
    · simp only [menu_show, menu_hide, eq_self_iff_true, if_true]
      rw [if_neg (by omega : ¬ (dims.2 - 0 ≤ 2))]
      simp only [menuLongest, sub_zero]
    · simp only [menu_show, menu_hide, eq_self_iff_true, if_true]
      rw [if_neg (by omega : ¬ (dims.2 - 0 ≤ 2))]
      simp only [menuLongest, sub_zero] at hcols1 ⊢
      rw [div_round_up_eq_ceil hn1 hcols1]
  | Context =>
    have hav' : 2 < dims.2 - anchor.2 := by simpa [menuAvail] using hav
    have hclaim : menuClaimColumns dims anchor items MenuStyle.Context = 1 := by
      simp [menuClaimColumns]
    rw [hclaim]
    cases status_on_top <;> refine ⟨?_, ?_, ?_⟩ <;>
      (simp only [menu_show, menu_hide, reduceCtorEq, reduceIte, if_false]
       try rw [if_neg (by omega : ¬ (dims.2 - anchor.2 ≤ 2))]
       try rfl
       try (simp only [div_round_up, Int.tdiv_one]; omega))

/-- 25 items of 14 codepoints each, the C8 witness input. -/
def menuItemsExample : List (List Char) := List.replicate 25 (List.replicate 14 'a')

/-- An all-default face. -/
def faceExample : Face := ⟨Color.Default, Color.Default, 0⟩

set_option maxRecDepth 8000 in
/-- Witness for C8: 25 items of width 14 on an 80-column terminal in
`Prompt` style — longest = 15, columns = ⌊79/15⌋ = 5, height =
min(10, ⌈25/5⌉) = 5, matching the claim's worked example. -/
theorem C8_menu_show_height_witness :
    (2 < menuAvail (24, 80) (0, 0) MenuStyle.Prompt
      ∧ menuItemsExample ≠ [])
    ∧ (((menu_show (24, 80) false menuItemsExample (0, 0) faceExample
          faceExample MenuStyle.Prompt {}).m_menu.win = some ())
      ∧ (menu_show (24, 80) false menuItemsExample (0, 0) faceExample
          faceExample MenuStyle.Prompt {}).m_menu_columns
          = menuClaimColumns (24, 80) (0, 0) menuItemsExample MenuStyle.Prompt
      ∧ (menu_show (24, 80) false menuItemsExample (0, 0) faceExample
          faceExample MenuStyle.Prompt {}).m_menu.size.1
          = min 10 (((menuItemsExample.length : Int)
              + menuClaimColumns (24, 80) (0, 0) menuItemsExample
                  MenuStyle.Prompt - 1).tdiv
              (menuClaimColumns (24, 80) (0, 0) menuItemsExample
                MenuStyle.Prompt)))
    ∧ menuClaimColumns (24, 80) (0, 0) menuItemsExample MenuStyle.Prompt = 5
    ∧ (menu_show (24, 80) false menuItemsExample (0, 0) faceExample
        faceExample MenuStyle.Prompt {}).m_menu.size.1 = 5 :=
  ⟨⟨by decide, by decide⟩,
   C8_menu_show_height (24, 80) false menuItemsExample (0, 0) faceExample
     faceExample MenuStyle.Prompt {} (by decide) (by decide),
   by decide, by decide⟩

end NcursesUI
